import Mathlib

/-!
Verification development for the tiny-trae agent core.

This file gives a shallow embedding, in Lean 4, of the agent orchestration
core of the tiny-trae repository and proves properties of it:

* the Message protocol (`internal/agent/message.go`: `MessageType`, `Message`,
  `ToolCallData`, `ToolResultData`);
* tool dispatch (`Agent.executeTool` in the frontend-decoupled agent of
  `internal/agent/message.go`);
* one iteration of the core conversation loop (`Agent.runCore`, same file);
* the frontend rendering dispatch (`ConsoleFrontend.SendMessage` and the
  TUI `SendMessage`/`addMessage`/`wrapText` of `internal/frontend/tui.go`);
* the TUI close/done-channel protocol (`TUIFrontend.Close`) and the spinner
  tick branch of the TUI `Update` state machine.

External collaborators are modelled as parameters: the Model Gateway outcome
is an `Except` value handed to the step function, the markdown renderer is a
`String → Option String` argument (with `Option.none` standing for a render
failure, triggering the plain-text fallback as in the source), and tool
functions are `String → Except String String`, mirroring the Go signature
`func(input json.RawMessage) (string, error)`.  Machine-level details that
cannot influence the claims under study (context cancellation plumbing,
lipgloss ANSI escape sequences, bubbletea scheduling) are noted in comments at
their definitions.
-/

namespace TinyTrae

/-! ## Message protocol (internal/agent/message.go) -/

/-- Embeds the Go `MessageType` string enumeration. -/
inductive MessageType where
  | userInput
  | assistant
  | toolCall
  | toolResult
  | error
  | systemInfo
deriving DecidableEq, Repr

/-- Embeds the structured `Data` payload of a `Message`: in Go this is raw
JSON produced by marshalling either `ToolCallData` or `ToolResultData`.
`json.Marshal` on those two structs (plain strings, a bool, raw JSON input)
cannot fail, so the marshal-failure fallback branches of the source are dead
code and the payload is modelled structurally. -/
inductive MessageData where
  | toolCall (toolName toolID input : String)
  | toolResult (toolName toolID result : String) (isError : Bool)
deriving DecidableEq, Repr

/-- Embeds the Go `Message` struct.  `data := Option.none` corresponds to a
message whose `Data json.RawMessage` field is nil/omitted. -/
structure Message where
  type : MessageType
  content : String
  data : Option MessageData
deriving DecidableEq, Repr

/-! ## Tool catalog and dispatch (internal/agent/message.go, executeTool) -/

/-- Embeds the Go `ToolDefinition`.  The input schema is static metadata not
needed by any claim, so only the name, description and function are kept.
The function mirrors `func(input json.RawMessage) (string, error)`:
`Except.ok` is a successful `(string, nil)` return, `Except.error e` is a
return with a non-nil error whose `Error()` text is `e`. -/
structure ToolDefinition where
  name : String
  description : String
  toolFunction : String → Except String String

/-- Embeds `anthropic.NewToolResultBlock(id, content, isError)`: the
tool-result content block appended to the tool-results turn. -/
structure ToolResultBlock where
  toolUseID : String
  content : String
  isError : Bool
deriving DecidableEq, Repr

/-- Embeds the lookup loop at the top of `executeTool`: linear scan of the
profile tool list for an exact name match. -/
def findTool (tools : List ToolDefinition) (name : String) : Option ToolDefinition :=
  tools.find? fun t => t.name == name

/-- Embeds `Agent.executeTool` from the frontend-decoupled agent in
`internal/agent/message.go` (lines 492-581).  Returns the list of `Message`
values sent to the frontend, in emission order, together with the returned
tool-result block.

Source behaviour embedded here:
* name not found: send one `tool_result` Message with empty `Content` and a
  `ToolResultData` payload carrying `"tool not found"` and `IsError: true`;
  return a block with the same id, text and error flag.  No `tool_call`
  Message is sent on this path.
* name found: send a `tool_call` Message (content `"Executing tool: <name>"`
  with a `ToolCallData` payload), call the tool function, then send a
  `tool_result` Message whose content and payload carry the function result
  (or the error text with `IsError: true`), and return the matching block. -/
def executeTool (tools : List ToolDefinition) (id name input : String) :
    List Message × ToolResultBlock :=
  match findTool tools name with
  | Option.none =>
      ([⟨MessageType.toolResult, "",
          Option.some (MessageData.toolResult name id "tool not found" true)⟩],
        ⟨id, "tool not found", true⟩)
  | Option.some toolDef =>
      let callMsg : Message :=
        ⟨MessageType.toolCall, "Executing tool: " ++ name,
          Option.some (MessageData.toolCall name id input)⟩
      match toolDef.toolFunction input with
      | Except.error e =>
          ([callMsg,
            ⟨MessageType.toolResult, e,
              Option.some (MessageData.toolResult name id e true)⟩],
            ⟨id, e, true⟩)
      | Except.ok response =>
          ([callMsg,
            ⟨MessageType.toolResult, response,
              Option.some (MessageData.toolResult name id response false)⟩],
            ⟨id, response, false⟩)

/-! ## Conversation data model -/

/-- Embeds one content item of a model response (`message.Content` entries):
either a text block or a `tool_use` block carrying the gateway-assigned
invocation id, tool name, and raw input. -/
inductive ContentBlock where
  | text (body : String)
  | toolUse (id name input : String)
deriving DecidableEq, Repr

/-- Embeds one conversation turn.  In the Go source a tool-results turn is
built as `anthropic.NewUserMessage(toolResults...)`, a user-role message
holding only tool-result blocks; it is kept as its own constructor so the
block structure stays visible. -/
inductive Turn where
  | user (body : String)
  | assistant (content : List ContentBlock)
  | toolResults (results : List ToolResultBlock)
deriving DecidableEq, Repr

/-- State carried between iterations of the `runCore` loop: the conversation
slice and the `readUserInput` flag. -/
structure CoreState where
  conversation : List Turn
  readUserInput : Bool
deriving DecidableEq, Repr

/-- Outcome of one iteration of the `runCore` loop.  `continueLoop` is a
`continue` (or fall-through) with the next state; `terminateOk` is a `return
nil` (input exhausted, or non-interactive completion); `terminateErr` is a
`return err` after a gateway failure in non-interactive mode.  Every outcome
records the Messages sent to the frontend during the iteration, in order. -/
inductive StepResult where
  | continueLoop (next : CoreState) (emitted : List Message)
  | terminateOk (emitted : List Message)
  | terminateErr (e : String) (emitted : List Message)
deriving DecidableEq, Repr

/-- Messages emitted during the iteration, for any outcome. -/
def StepResult.emitted : StepResult → List Message
  | StepResult.continueLoop _ ms => ms
  | StepResult.terminateOk ms => ms
  | StepResult.terminateErr _ ms => ms

/-- Embeds the input-reading prologue of a `runCore` iteration (lines
387-401): when `readUserInput` is set, ask the frontend for input.
`userInput = Option.none` is a `GetUserInput` returning `ok == false`, which
breaks the loop; `Option.some u` appends a user turn and emits a
`user_input` Message.  When `readUserInput` is clear, nothing happens. -/
def readPhase (s : CoreState) (userInput : Option String) :
    Option (List Turn × List Message) :=
  if s.readUserInput then
    match userInput with
    | Option.none => Option.none
    | Option.some u =>
        Option.some (s.conversation ++ [Turn.user u],
          [⟨MessageType.userInput, u, Option.none⟩])
  else
    Option.some (s.conversation, [])

/-- Embeds the content-processing loop of `runCore` (lines 422-436): walk the
assistant content in order; each text item sends one `assistant` Message;
each `tool_use` item is dispatched through `executeTool` and its block
collected.  Returns the emitted Messages (in order) and the collected
tool-result blocks (in order). -/
def processContent (tools : List ToolDefinition) :
    List ContentBlock → List Message × List ToolResultBlock
  | [] => ([], [])
  | ContentBlock.text t :: rest =>
      let r := processContent tools rest
      (⟨MessageType.assistant, t, Option.none⟩ :: r.1, r.2)
  | ContentBlock.toolUse id name input :: rest =>
      let e := executeTool tools id name input
      let r := processContent tools rest
      (e.1 ++ r.1, e.2 :: r.2)

/-- Error Message sent on a gateway failure: Go formats
`"LLM request failed: %v"` with the error. -/
def errorMessage (e : String) : Message :=
  ⟨MessageType.error, "LLM request failed: " ++ e, Option.none⟩

/-- Embeds one iteration of `Agent.runCore` (`internal/agent/message.go`,
lines 380-457).  The Model Gateway is external, so its outcome for this
iteration is the `inference` parameter (`runInference` result); the frontend
is external, so the pending `GetUserInput` answer is the `userInput`
parameter and `IsInteractive` is the `interactive` flag.  The context
cancellation check at the top of the loop (`select` on `ctx.Done()`) is not
modelled: no claim under study involves cancellation.

Iteration structure, as in source:
1. read phase (see `readPhase`); a closed input stream returns nil;
2. inference; on error emit an `error` Message, then continue with
   `readUserInput = true` if interactive, else return the error;
3. on success append the assistant turn, process content (see
   `processContent`);
4. if no tool results: continue reading input if interactive, else return
   nil; otherwise append the tool-results turn and continue with
   `readUserInput = false`. -/
def runCoreStep (tools : List ToolDefinition) (interactive : Bool)
    (userInput : Option String) (inference : Except String (List ContentBlock))
    (s : CoreState) : StepResult :=
  match readPhase s userInput with
  | Option.none => StepResult.terminateOk []
  | Option.some (conv, msgs1) =>
      match inference with
      | Except.error e =>
          if interactive then
            StepResult.continueLoop ⟨conv, true⟩ (msgs1 ++ [errorMessage e])
          else
            StepResult.terminateErr e (msgs1 ++ [errorMessage e])
      | Except.ok content =>
          let conv2 := conv ++ [Turn.assistant content]
          let pc := processContent tools content
          if pc.2.isEmpty then
            if interactive then
              StepResult.continueLoop ⟨conv2, true⟩ (msgs1 ++ pc.1)
            else
              StepResult.terminateOk (msgs1 ++ pc.1)
          else
            StepResult.continueLoop ⟨conv2 ++ [Turn.toolResults pc.2], false⟩
              (msgs1 ++ pc.1)

/-! ## Observation helpers for the claims -/

/-- Invocation identifiers of the `tool_use` items of an assistant turn, in
order of appearance. -/
def toolUseIDs : List ContentBlock → List String
  | [] => []
  | ContentBlock.text _ :: rest => toolUseIDs rest
  | ContentBlock.toolUse id _ _ :: rest => id :: toolUseIDs rest

/-- Whether an assistant turn contains at least one tool invocation. -/
def hasToolUse (content : List ContentBlock) : Bool :=
  content.any fun c =>
    match c with
    | ContentBlock.toolUse _ _ _ => true
    | _ => false

/-- Bodies of the text items of an assistant turn, in order. -/
def textContents : List ContentBlock → List String
  | [] => []
  | ContentBlock.text t :: rest => t :: textContents rest
  | ContentBlock.toolUse _ _ _ :: rest => textContents rest

/-- Contents of the `assistant`-typed Messages of an emission list, in
order. -/
def assistantContents (msgs : List Message) : List String :=
  msgs.filterMap fun m =>
    match m.type with
    | MessageType.assistant => Option.some m.content
    | _ => Option.none

/-- Invocation identifiers carried by the `tool_result`-typed Messages of an
emission list, in order. -/
def emittedToolResultIDs (msgs : List Message) : List String :=
  msgs.filterMap fun m =>
    match m.type, m.data with
    | MessageType.toolResult, Option.some (MessageData.toolResult _ tid _ _) =>
        Option.some tid
    | _, _ => Option.none

/-! ## Frontend rendering (internal/agent/agent.go ConsoleFrontend,
internal/frontend/tui.go TUIFrontend) -/

/-- One line of frontend output.  `errorMarked` records whether the source
renders the line explicitly marked as an error: for the TUI message log this
is the use of `errorStyle` (bold red lipgloss style); for plain `fmt.Printf`
paths it is an explicit error label such as the `"Error:"` or
`"Tool Error"` prefix.  ANSI escape sequences produced by lipgloss are not
reproduced; `text` keeps the unstyled line skeleton. -/
structure RenderedLine where
  text : String
  errorMarked : Bool
deriving DecidableEq, Repr

/-- Embeds Go `strings.Fields`: split on whitespace runs, dropping empty
fields.  (Go uses `unicode.IsSpace`; `Char.isWhitespace` agrees on ASCII
whitespace, which is all the claims need.) -/
def splitFields (s : String) : List String :=
  (s.split Char.isWhitespace).filter fun w => w ≠ ""

/-- One step of the word loop in `wrapText` (`internal/frontend/tui.go`,
lines 344-359): `acc.1` is the finished lines, `acc.2` the current line.
Lengths are rune counts, as in the source (`utf8.RuneCountInString`);
`String.length` counts unicode scalar values, which matches. -/
def wrapStep (width : Int) (acc : List String × String) (word : String) :
    List String × String :=
  let lineLen : Int := Int.ofNat acc.2.length
  let wordLen : Int := Int.ofNat word.length
  if lineLen + wordLen + 1 > width ∧ lineLen > 0 then
    (acc.1 ++ [acc.2], word)
  else if acc.2 = "" then
    (acc.1, word)
  else
    (acc.1, acc.2 ++ " " ++ word)

/-- Embeds `wrapText` (`internal/frontend/tui.go`, lines 331-367). -/
def wrapText (text : String) (width : Int) : String :=
  if width ≤ 0 then text
  else
    let words := splitFields text
    if words.isEmpty then text
    else
      let r := words.foldl (wrapStep width) ([], "")
      let lines := if r.2 = "" then r.1 else r.1 ++ [r.2]
      String.intercalate "\n" lines

/-- Embeds `ConsoleFrontend.SendMessage` (`internal/agent/agent.go`, lines
219-254) as the list of printed lines.  Notes on fidelity:
* `user_input` messages are intentionally not displayed (source comment:
  already shown by `GetUserInput`).
* the `tool_call`/`tool_result` branches unmarshal `msg.Data`; a nil payload
  fails to unmarshal and the branch prints nothing.  (Go would also
  zero-fill when unmarshalling a payload of the other variant, but the core
  only ever pairs a message type with its matching payload variant, so
  unmarshal success is modelled as the payload matching the variant.)
* the `tool_result` branch prints only in interactive mode; the error
  variant prints with a `"Tool Error"` label. -/
def consoleSendMessage (interactive : Bool) (msg : Message) : List RenderedLine :=
  match msg.type with
  | MessageType.userInput => []
  | MessageType.assistant =>
      if interactive then [⟨"Trae: " ++ msg.content, false⟩]
      else [⟨msg.content, false⟩]
  | MessageType.toolCall =>
      if interactive then
        match msg.data with
        | Option.some (MessageData.toolCall tn _ input) =>
            [⟨"Tool: " ++ tn ++ "(" ++ input ++ ")", false⟩]
        | _ => []
      else []
  | MessageType.toolResult =>
      match msg.data with
      | Option.some (MessageData.toolResult tn _ result isErr) =>
          if interactive then
            if isErr then [⟨"Tool Error (" ++ tn ++ "): " ++ result, true⟩]
            else [⟨"Tool Result (" ++ tn ++ "): " ++ result, false⟩]
          else []
      | _ => []
  | MessageType.error => [⟨"Error: " ++ msg.content, true⟩]
  | MessageType.systemInfo => [⟨msg.content, false⟩]

/-- Truncation of tool-result text for display (`internal/frontend/tui.go`,
lines 415-418): results longer than 200 are cut and suffixed with an
ellipsis.  (Go slices bytes; this uses scalar positions, which agrees on
ASCII results.) -/
def truncateResult (result : String) : String :=
  if result.length > 200 then (result.take 200) ++ "..." else result

/-- Embeds `tuiModel.addMessage` (`internal/frontend/tui.go`, lines
370-439), producing the single formatted log line appended to
`m.messages`.  The markdown renderer (`glamour`) is the external `render`
parameter: `Option.none` is a render error, taking the plain-text fallback
branch; `Option.some r` is the rendered text, trimmed of trailing newlines
by the source before use (the trimming is part of the opaque rendered text
here).  `ts` is the wall-clock timestamp string.  Styled label segments are
written plainly; `errorMarked` records the use of `errorStyle`. -/
def tuiAddMessage (render : String → Option String) (ts : String) (width : Int)
    (msg : Message) : RenderedLine :=
  let availableWidth : Int := max (width - 12) 20
  match msg.type with
  | MessageType.userInput =>
      ⟨"[" ++ ts ++ "] You: " ++ wrapText msg.content (availableWidth - 6), false⟩
  | MessageType.assistant =>
      match render msg.content with
      | Option.none =>
          ⟨"[" ++ ts ++ "] Trae: " ++ wrapText msg.content (availableWidth - 6), false⟩
      | Option.some rendered =>
          ⟨"[" ++ ts ++ "] Trae:\n" ++ rendered, false⟩
  | MessageType.toolCall =>
      match msg.data with
      | Option.some (MessageData.toolCall tn _ _) =>
          ⟨"[" ++ ts ++ "] Tool: " ++
            wrapText ("Executing " ++ tn) (availableWidth - 6), false⟩
      | _ =>
          ⟨"[" ++ ts ++ "] Tool: " ++ wrapText msg.content (availableWidth - 6), false⟩
  | MessageType.toolResult =>
      match msg.data with
      | Option.some (MessageData.toolResult tn _ result isErr) =>
          if isErr then
            ⟨"[" ++ ts ++ "] Error " ++
              wrapText (tn ++ ": " ++ result) (availableWidth - 8), true⟩
          else
            ⟨"[" ++ ts ++ "] Result " ++
              wrapText (tn ++ ": " ++ truncateResult result) (availableWidth - 8),
              false⟩
      | _ =>
          ⟨"[" ++ ts ++ "] Result: " ++ wrapText msg.content (availableWidth - 6),
            false⟩
  | MessageType.error =>
      ⟨"[" ++ ts ++ "] Error: " ++ wrapText msg.content (availableWidth - 8), true⟩
  | MessageType.systemInfo =>
      ⟨"[" ++ ts ++ "] System: " ++ wrapText msg.content (availableWidth - 8), false⟩

/-- Embeds `TUIFrontend.SendMessage` (`internal/frontend/tui.go`, lines
442-456) as the rendered lines the message produces.  Interactive mode posts
a `messageReceivedMsg` to the bubbletea program, whose `Update` handler
calls `addMessage`, appending exactly one log line; that line is returned
here.  Non-interactive mode falls back to `fmt.Printf` for the
`assistant`, `error` and `system_info` types only; all other message types
produce no output. -/
def tuiSendMessage (interactive : Bool) (render : String → Option String)
    (ts : String) (width : Int) (msg : Message) : List RenderedLine :=
  if interactive then [tuiAddMessage render ts width msg]
  else
    match msg.type with
    | MessageType.assistant => [⟨"Trae: " ++ msg.content, false⟩]
    | MessageType.error => [⟨"Error: " ++ msg.content, true⟩]
    | MessageType.systemInfo => [⟨msg.content, false⟩]
    | _ => []

/-! ## TUI close protocol (internal/frontend/tui.go, Close / run / done) -/

/-- State of the `done` channel (`make(chan bool, 1)`) shared between the
`run` goroutine and `Close`.  `buffered` is the number of values sitting in
the channel buffer; `pendingSends` is the number of sends the `run`
goroutine will still perform (`t.done <- true` runs exactly once, when
`program.Run` returns after a `Quit`). -/
structure DoneChannel where
  buffered : Nat
  pendingSends : Nat
deriving DecidableEq, Repr

/-- State of the `done` channel right after `NewTUIFrontend(true)` starts
the program goroutine: nothing buffered, the single `run` send pending. -/
def doneChannelInit : DoneChannel := ⟨0, 1⟩

/-- Embeds `TUIFrontend.Close` (`internal/frontend/tui.go`, lines 484-496)
for the interactive case with a running program.  `program.Quit()` is
idempotent and causes `program.Run` to return, so the pending `run` send
(if any) becomes available.  The `select` then consumes a buffered value if
one is present; otherwise the `default` branch performs a blocking
`<-t.done`, which completes only if a send is still pending.  The result is
`Option.some` of the new channel state when the call returns, and
`Option.none` when the call blocks forever. -/
def tuiClose (interactive : Bool) (c : DoneChannel) : Option DoneChannel :=
  if interactive then
    if c.buffered > 0 then Option.some ⟨c.buffered - 1, c.pendingSends⟩
    else if c.pendingSends > 0 then Option.some ⟨0, c.pendingSends - 1⟩
    else Option.none
  else Option.some c

/-! ## TUI spinner tick (internal/frontend/tui.go, Update) -/

/-- Spinner model state from the bubbles spinner component: the current
frame index and the number of frames of the configured spinner. -/
structure SpinnerState where
  frame : Nat
  numFrames : Nat
deriving DecidableEq, Repr

/-- Flags of the TUI session state involved in the tick branch of
`Update`. -/
structure TuiState where
  waitingForInput : Bool
  waitingForResponse : Bool
  processingTool : Bool
  currentToolName : String
  spinner : SpinnerState
deriving DecidableEq, Repr

/-- Embeds `spinner.Model.Update` from the bubbles library on a matching
`TickMsg` (id and tag checks pass): the frame is incremented and wrapped at
the frame count, and a command scheduling the next tick is returned. -/
def spinnerAdvance (sp : SpinnerState) : SpinnerState :=
  ⟨(sp.frame + 1) % sp.numFrames, sp.numFrames⟩

/-- Embeds the `spinner.TickMsg` branch of `tuiModel.Update`
(`internal/frontend/tui.go`, lines 271-277): the spinner is updated
unconditionally via `m.spinner.Update(msg)`, and the returned next-tick
command is appended to `cmds` only when `waitingForResponse` or
`processingTool` holds.  The second component reports whether a further
tick was scheduled. -/
def updateSpinnerTick (m : TuiState) : TuiState × Bool :=
  ({ m with spinner := spinnerAdvance m.spinner },
    m.waitingForResponse || m.processingTool)

/-! ## Helper lemmas -/

/-- Dispatch of an unregistered name: single `tool_result` Message, block
with the fixed error text. -/
lemma executeTool_notFound {tools : List ToolDefinition} {name : String}
    (id input : String) (h : findTool tools name = Option.none) :
    executeTool tools id name input =
      ([⟨MessageType.toolResult, "",
          Option.some (MessageData.toolResult name id "tool not found" true)⟩],
        ⟨id, "tool not found", true⟩) := by
  simp [executeTool, h]

/-- The block returned by dispatch always carries the invocation id it was
called with. -/
lemma executeTool_id (tools : List ToolDefinition) (id name input : String) :
    (executeTool tools id name input).2.toolUseID = id := by
  unfold executeTool
  cases h : findTool tools name with
  | none => rfl
  | some td => cases hf : td.toolFunction input <;> simp [hf]

/-- Dispatch emits exactly one `tool_result` Message, carrying the
invocation id. -/
lemma executeTool_resultIDs (tools : List ToolDefinition) (id name input : String) :
    emittedToolResultIDs (executeTool tools id name input).1 = [id] := by
  unfold executeTool
  cases h : findTool tools name with
  | none => simp [emittedToolResultIDs]
  | some td => cases hf : td.toolFunction input <;> simp [hf, emittedToolResultIDs]

/-- Dispatch emits no `assistant`-typed Message. -/
lemma executeTool_assistantContents (tools : List ToolDefinition)
    (id name input : String) :
    assistantContents (executeTool tools id name input).1 = [] := by
  unfold executeTool
  cases h : findTool tools name with
  | none => simp [assistantContents]
  | some td => cases hf : td.toolFunction input <;> simp [hf, assistantContents]

/-- Message types emitted by dispatch: `tool_call` then `tool_result` when
the name is registered, a single `tool_result` otherwise. -/
lemma executeTool_msgTypes (tools : List ToolDefinition) (id name input : String) :
    (executeTool tools id name input).1.map Message.type =
      (match findTool tools name with
        | Option.some _ => [MessageType.toolCall, MessageType.toolResult]
        | Option.none => [MessageType.toolResult]) := by
  unfold executeTool
  cases h : findTool tools name with
  | none => rfl
  | some td => cases hf : td.toolFunction input <;> simp [hf]

/-- The collected tool-result blocks carry the invocation ids, one-to-one
and in order of appearance. -/
lemma processContent_ids (tools : List ToolDefinition) (content : List ContentBlock) :
    (processContent tools content).2.map ToolResultBlock.toolUseID =
      toolUseIDs content := by
  induction content with
  | nil => rfl
  | cons c rest ih =>
      cases c with
      | text t => simpa [processContent, toolUseIDs] using ih
      | toolUse id name input =>
          simp [processContent, toolUseIDs, ih, executeTool_id]

/-- `assistantContents` splits over list append. -/
lemma assistantContents_append (a b : List Message) :
    assistantContents (a ++ b) = assistantContents a ++ assistantContents b := by
  simp [assistantContents]

/-- `emittedToolResultIDs` splits over list append. -/
lemma emittedToolResultIDs_append (a b : List Message) :
    emittedToolResultIDs (a ++ b) =
      emittedToolResultIDs a ++ emittedToolResultIDs b := by
  simp [emittedToolResultIDs]

/-- The content loop emits one `assistant` Message per text item, with the
text bodies in order, regardless of interleaved tool dispatches. -/
lemma processContent_assistant (tools : List ToolDefinition)
    (content : List ContentBlock) :
    assistantContents (processContent tools content).1 = textContents content := by
  induction content with
  | nil => rfl
  | cons c rest ih =>
      cases c with
      | text t => simp [processContent, textContents, assistantContents] at ih ⊢; exact ih
      | toolUse id name input =>
          simp [processContent, textContents, assistantContents_append,
            executeTool_assistantContents, ih]

/-- The `tool_result` Messages emitted by the content loop carry the
invocation ids in order of appearance. -/
lemma processContent_resultIDs (tools : List ToolDefinition)
    (content : List ContentBlock) :
    emittedToolResultIDs (processContent tools content).1 = toolUseIDs content := by
  induction content with
  | nil => rfl
  | cons c rest ih =>
      cases c with
      | text t => simpa [processContent, toolUseIDs, emittedToolResultIDs] using ih
      | toolUse id name input =>
          simp [processContent, toolUseIDs, emittedToolResultIDs_append,
            executeTool_resultIDs, ih]

/-- The collected blocks are empty exactly when the turn had no tool
invocation. -/
lemma processContent_isEmpty (tools : List ToolDefinition)
    (content : List ContentBlock) :
    (processContent tools content).2.isEmpty = !(hasToolUse content) := by
  induction content with
  | nil => rfl
  | cons c rest ih =>
      cases c with
      | text t => simpa [processContent, hasToolUse] using ih
      | toolUse id name input => simp [processContent, hasToolUse]

/-- The read phase emits no `tool_result` Message. -/
lemma readPhase_resultIDs {s : CoreState} {userInput : Option String}
    {conv0 : List Turn} {msgs1 : List Message}
    (h : readPhase s userInput = Option.some (conv0, msgs1)) :
    emittedToolResultIDs msgs1 = [] := by
  unfold readPhase at h
  by_cases hr : s.readUserInput
  · simp [hr] at h
    cases userInput with
    | none => simp at h
    | some u =>
        simp at h
        obtain ⟨h1, h2⟩ := h
        subst h2
        rfl
  · simp [hr] at h
    obtain ⟨h1, h2⟩ := h
    subst h2
    rfl

/-- The read phase emits no `assistant` Message. -/
lemma readPhase_assistantContents {s : CoreState} {userInput : Option String}
    {conv0 : List Turn} {msgs1 : List Message}
    (h : readPhase s userInput = Option.some (conv0, msgs1)) :
    assistantContents msgs1 = [] := by
  unfold readPhase at h
  by_cases hr : s.readUserInput
  · simp [hr] at h
    cases userInput with
    | none => simp at h
    | some u =>
        simp at h
        obtain ⟨h1, h2⟩ := h
        subst h2
        rfl
  · simp [hr] at h
    obtain ⟨h1, h2⟩ := h
    subst h2
    rfl

/-! ## Claim theorems -/

/-- Claim C1: for every assistant turn with at least one tool invocation,
the core loop appends exactly one tool-results turn immediately after the
assistant turn, and that turn contains exactly one tool-result entry per
invocation, matched one-to-one by invocation identifier, in the order the
invocations appeared. -/
theorem toolResults_turn_one_to_one
    (tools : List ToolDefinition) (interactive : Bool) (userInput : Option String)
    (s : CoreState) (content : List ContentBlock)
    (conv0 : List Turn) (msgs1 : List Message)
    (hrp : readPhase s userInput = Option.some (conv0, msgs1))
    (htool : hasToolUse content = true) :
    runCoreStep tools interactive userInput (Except.ok content) s =
      StepResult.continueLoop
        ⟨conv0 ++ [Turn.assistant content,
          Turn.toolResults (processContent tools content).2], false⟩
        (msgs1 ++ (processContent tools content).1)
    ∧ (processContent tools content).2.map ToolResultBlock.toolUseID =
        toolUseIDs content := by
  refine ⟨?_, processContent_ids tools content⟩
  simp [runCoreStep, hrp, processContent_isEmpty, htool]

/-- Witness for C1: a turn with a single invocation of an unregistered tool
produces exactly one tool-results turn with the matching identifier. -/
theorem toolResults_turn_one_to_one_witness :
    (runCoreStep [] false Option.none
        (Except.ok [ContentBlock.toolUse "id1" "missing" "x"]) ⟨[], false⟩ =
      StepResult.continueLoop
        ⟨[] ++ [Turn.assistant [ContentBlock.toolUse "id1" "missing" "x"],
          Turn.toolResults
            (processContent [] [ContentBlock.toolUse "id1" "missing" "x"]).2], false⟩
        ([] ++ (processContent [] [ContentBlock.toolUse "id1" "missing" "x"]).1))
    ∧ (processContent [] [ContentBlock.toolUse "id1" "missing" "x"]).2.map
        ToolResultBlock.toolUseID =
      toolUseIDs [ContentBlock.toolUse "id1" "missing" "x"] :=
  toolResults_turn_one_to_one [] false Option.none ⟨[], false⟩
    [ContentBlock.toolUse "id1" "missing" "x"] [] [] rfl rfl

/-- Claim C2: dispatching a tool whose name is not registered returns a
tool-result with `isError = true` and text exactly `"tool not found"`,
never a fatal error: the core loop continues, and the result is reported
into the conversation as the entry of the appended tool-results turn. -/
theorem unknown_tool_dispatch_nonfatal
    (tools : List ToolDefinition) (interactive : Bool) (userInput : Option String)
    (s : CoreState) (id name input : String)
    (conv0 : List Turn) (msgs1 : List Message)
    (hname : findTool tools name = Option.none)
    (hrp : readPhase s userInput = Option.some (conv0, msgs1)) :
    executeTool tools id name input =
      ([⟨MessageType.toolResult, "",
          Option.some (MessageData.toolResult name id "tool not found" true)⟩],
        ⟨id, "tool not found", true⟩)
    ∧ runCoreStep tools interactive userInput
        (Except.ok [ContentBlock.toolUse id name input]) s =
      StepResult.continueLoop
        ⟨conv0 ++ [Turn.assistant [ContentBlock.toolUse id name input],
          Turn.toolResults [⟨id, "tool not found", true⟩]], false⟩
        (msgs1 ++ [⟨MessageType.toolResult, "",
          Option.some (MessageData.toolResult name id "tool not found" true)⟩]) := by
  have he := executeTool_notFound id input hname
  refine ⟨he, ?_⟩
  simp [runCoreStep, hrp, processContent, he]

/-- Witness for C2: dispatch of an unregistered name against the empty
catalog. -/
theorem unknown_tool_dispatch_nonfatal_witness :
    executeTool [] "id1" "missing" "x" =
      ([⟨MessageType.toolResult, "",
          Option.some (MessageData.toolResult "missing" "id1" "tool not found" true)⟩],
        ⟨"id1", "tool not found", true⟩)
    ∧ runCoreStep [] true Option.none
        (Except.ok [ContentBlock.toolUse "id1" "missing" "x"]) ⟨[], false⟩ =
      StepResult.continueLoop
        ⟨[] ++ [Turn.assistant [ContentBlock.toolUse "id1" "missing" "x"],
          Turn.toolResults [⟨"id1", "tool not found", true⟩]], false⟩
        ([] ++ [⟨MessageType.toolResult, "",
          Option.some (MessageData.toolResult "missing" "id1" "tool not found" true)⟩]) :=
  unknown_tool_dispatch_nonfatal [] true Option.none ⟨[], false⟩
    "id1" "missing" "x" [] [] rfl rfl

/-- Claim C3 counterexample: a dispatch of an unregistered name does NOT
emit a `tool_call` Message — the emitted list is a single `tool_result`
Message, refuting the claim that both Messages are emitted in the
not-found case. -/
theorem unknown_tool_emits_no_tool_call_cex :
    (executeTool [] "id1" "missing" "x").1.map Message.type =
      [MessageType.toolResult]
    ∧ ¬ ∃ m ∈ (executeTool [] "id1" "missing" "x").1,
        m.type = MessageType.toolCall := by
  decide

/-- Claim C3 (amended): for a registered tool name, dispatch emits a
`tool_call` Message before invoking the function and a `tool_result`
Message after it returns; for an unregistered name, dispatch emits only a
`tool_result` Message (no `tool_call`), and the returned result has
`isError = true`. -/
theorem dispatch_message_emissions
    (tools : List ToolDefinition) (id name input : String) :
    ((findTool tools name).isSome = true →
      (executeTool tools id name input).1.map Message.type =
        [MessageType.toolCall, MessageType.toolResult])
    ∧ (findTool tools name = Option.none →
      (executeTool tools id name input).1.map Message.type =
        [MessageType.toolResult]
      ∧ (executeTool tools id name input).2.isError = true) := by
  constructor
  · intro h
    cases hh : findTool tools name with
    | none => simp [hh] at h
    | some td => simp [executeTool_msgTypes, hh]
  · intro h
    refine ⟨?_, ?_⟩
    · simp [executeTool_msgTypes, h]
    · simp [executeTool_notFound id input h]

/-- Witness for C3 (amended): a registered echo tool produces the
`tool_call` / `tool_result` pair. -/
theorem dispatch_message_emissions_witness :
    (executeTool [⟨"echo", "d", fun i => Except.ok i⟩] "id1" "echo" "x").1.map
        Message.type =
      [MessageType.toolCall, MessageType.toolResult] :=
  (dispatch_message_emissions [⟨"echo", "d", fun i => Except.ok i⟩]
    "id1" "echo" "x").1 rfl

/-- Claim C4: when the Model Gateway call fails, the core emits an `error`
Message; in interactive mode the loop continues with `readUserInput = true`
(so a subsequent input is accepted and appended as a user turn), while in
non-interactive mode the loop terminates and the error propagates to the
caller. -/
theorem gateway_failure_modes
    (tools : List ToolDefinition) (interactive : Bool) (userInput : Option String)
    (s : CoreState) (e : String) (conv0 : List Turn) (msgs1 : List Message)
    (hrp : readPhase s userInput = Option.some (conv0, msgs1)) :
    runCoreStep tools interactive userInput (Except.error e) s =
      (if interactive then
        StepResult.continueLoop ⟨conv0, true⟩ (msgs1 ++ [errorMessage e])
      else
        StepResult.terminateErr e (msgs1 ++ [errorMessage e]))
    ∧ (∀ u, readPhase ⟨conv0, true⟩ (Option.some u) =
        Option.some (conv0 ++ [Turn.user u],
          [⟨MessageType.userInput, u, Option.none⟩])) := by
  constructor
  · simp [runCoreStep, hrp]
  · intro u
    rfl

/-- Witness for C4: a gateway failure in an interactive session continues
the loop back to reading input. -/
theorem gateway_failure_modes_witness :
    runCoreStep [] true Option.none (Except.error "boom") ⟨[], false⟩ =
      (if true then
        StepResult.continueLoop ⟨[], true⟩ ([] ++ [errorMessage "boom"])
      else
        StepResult.terminateErr "boom" ([] ++ [errorMessage "boom"]))
    ∧ (∀ u, readPhase ⟨[], true⟩ (Option.some u) =
        Option.some ([] ++ [Turn.user u],
          [⟨MessageType.userInput, u, Option.none⟩])) :=
  gateway_failure_modes [] true Option.none ⟨[], false⟩ "boom" [] [] rfl

/-- Claim C5: every tool invocation of the assistant turn is dispatched
synchronously in the order of appearance (the emitted `tool_result`
Messages carry the invocation ids in that order), the collected
tool-results turn is appended to the conversation, and the loop continues
with `readUserInput = false`, so the next read phase solicits no user input
before the next Model Gateway call. -/
theorem tool_dispatch_then_model_call
    (tools : List ToolDefinition) (interactive : Bool) (userInput : Option String)
    (s : CoreState) (content : List ContentBlock)
    (conv0 : List Turn) (msgs1 : List Message)
    (hrp : readPhase s userInput = Option.some (conv0, msgs1))
    (htool : hasToolUse content = true) :
    ∃ s2 : CoreState,
      runCoreStep tools interactive userInput (Except.ok content) s =
        StepResult.continueLoop s2 (msgs1 ++ (processContent tools content).1)
      ∧ s2.conversation =
          conv0 ++ [Turn.assistant content,
            Turn.toolResults (processContent tools content).2]
      ∧ s2.readUserInput = false
      ∧ emittedToolResultIDs (msgs1 ++ (processContent tools content).1) =
          toolUseIDs content
      ∧ (∀ u, readPhase s2 u = Option.some (s2.conversation, [])) := by
  refine ⟨⟨conv0 ++ [Turn.assistant content,
      Turn.toolResults (processContent tools content).2], false⟩, ?_, rfl, rfl, ?_, ?_⟩
  · simp [runCoreStep, hrp, processContent_isEmpty, htool]
  · rw [emittedToolResultIDs_append, readPhase_resultIDs hrp,
      processContent_resultIDs]
    simp
  · intro u
    rfl

/-- Witness for C5: one unregistered invocation, non-interactive session. -/
theorem tool_dispatch_then_model_call_witness :
    ∃ s2 : CoreState,
      runCoreStep [] false Option.none
          (Except.ok [ContentBlock.toolUse "id1" "missing" "x"]) ⟨[], false⟩ =
        StepResult.continueLoop s2
          ([] ++ (processContent [] [ContentBlock.toolUse "id1" "missing" "x"]).1)
      ∧ s2.conversation =
          [] ++ [Turn.assistant [ContentBlock.toolUse "id1" "missing" "x"],
            Turn.toolResults
              (processContent [] [ContentBlock.toolUse "id1" "missing" "x"]).2]
      ∧ s2.readUserInput = false
      ∧ emittedToolResultIDs
          ([] ++ (processContent [] [ContentBlock.toolUse "id1" "missing" "x"]).1) =
          toolUseIDs [ContentBlock.toolUse "id1" "missing" "x"]
      ∧ (∀ u, readPhase s2 u = Option.some (s2.conversation, [])) :=
  tool_dispatch_then_model_call [] false Option.none ⟨[], false⟩
    [ContentBlock.toolUse "id1" "missing" "x"] [] [] rfl rfl

/-- Claim C6: for every successful Model Gateway response, the core emits
one `assistant` Message per text content item — the assistant-typed
Messages of the iteration carry exactly the text bodies, in order — for
every value of the interactive flag and regardless of whether tool
invocations are also present. -/
theorem assistant_message_per_text_item
    (tools : List ToolDefinition) (interactive : Bool) (userInput : Option String)
    (s : CoreState) (content : List ContentBlock)
    (conv0 : List Turn) (msgs1 : List Message)
    (hrp : readPhase s userInput = Option.some (conv0, msgs1)) :
    assistantContents
        (StepResult.emitted
          (runCoreStep tools interactive userInput (Except.ok content) s)) =
      textContents content := by
  have hemit : StepResult.emitted
      (runCoreStep tools interactive userInput (Except.ok content) s) =
      msgs1 ++ (processContent tools content).1 := by
    by_cases hie : (processContent tools content).2.isEmpty = true <;>
      by_cases hint : interactive = true <;>
        simp [runCoreStep, hrp, hie, hint, StepResult.emitted]
  rw [hemit, assistantContents_append, readPhase_assistantContents hrp,
    processContent_assistant]
  simp

/-- Witness for C6: a response mixing one text item and one tool invocation
emits exactly one assistant Message, carrying the text. -/
theorem assistant_message_per_text_item_witness :
    assistantContents
        (StepResult.emitted
          (runCoreStep [] false Option.none
            (Except.ok [ContentBlock.text "preamble",
              ContentBlock.toolUse "id1" "missing" "x"]) ⟨[], false⟩)) =
      textContents [ContentBlock.text "preamble",
        ContentBlock.toolUse "id1" "missing" "x"] :=
  assistant_message_per_text_item [] false Option.none ⟨[], false⟩
    [ContentBlock.text "preamble", ContentBlock.toolUse "id1" "missing" "x"]
    [] [] rfl

/-- Claim C7 (code bug): calling `TUIFrontend.Close` twice in sequence on
an interactive TUI blocks indefinitely.  The first call consumes the single
value the `run` goroutine sends on the `done` channel; the second call
finds the channel empty, takes the `default` branch, and blocks forever in
`<-t.done` (`Option.none` in the embedding), contradicting the required
idempotence of `Close`. -/
theorem tui_close_twice_blocks :
    tuiClose true doneChannelInit = Option.some ⟨0, 0⟩
    ∧ Option.bind (tuiClose true doneChannelInit) (tuiClose true) =
        Option.none := by
  decide

/-- Claim C8 counterexample: a `tool_result` Message with
`is_error = true` is silently dropped (no rendered output at all) by both
Display Surface variants in non-interactive mode, refuting the claim that
every error-representing Message is rendered in every variant and mode. -/
theorem error_tool_result_dropped_cex :
    consoleSendMessage false
        ⟨MessageType.toolResult, "boom",
          Option.some (MessageData.toolResult "bash" "id1" "boom" true)⟩ = []
    ∧ tuiSendMessage false (fun _ => Option.none) "12:00:00" 80
        ⟨MessageType.toolResult, "boom",
          Option.some (MessageData.toolResult "bash" "id1" "boom" true)⟩ = [] := by
  constructor <;> rfl

/-- Claim C8 (amended): Messages of type `error` are rendered marked as an
error and never dropped, by both variants in both modes; a `tool_result`
Message with `is_error = true` is rendered marked as an error by both
variants in interactive mode, but in non-interactive mode both variants
drop `tool_result` Messages entirely. -/
theorem error_rendering_by_mode
    (interactive : Bool) (render : String → Option String) (ts : String)
    (width : Int) (content : String) (d : Option MessageData)
    (tn tid res : String) :
    ((consoleSendMessage interactive ⟨MessageType.error, content, d⟩ ≠ [])
      ∧ (consoleSendMessage interactive ⟨MessageType.error, content, d⟩).all
          (fun l => l.errorMarked) = true)
    ∧ ((tuiSendMessage interactive render ts width
          ⟨MessageType.error, content, d⟩ ≠ [])
      ∧ (tuiSendMessage interactive render ts width
          ⟨MessageType.error, content, d⟩).all (fun l => l.errorMarked) = true)
    ∧ ((consoleSendMessage true ⟨MessageType.toolResult, content,
          Option.some (MessageData.toolResult tn tid res true)⟩).all
            (fun l => l.errorMarked) = true
      ∧ consoleSendMessage true ⟨MessageType.toolResult, content,
          Option.some (MessageData.toolResult tn tid res true)⟩ ≠ []
      ∧ (tuiSendMessage true render ts width ⟨MessageType.toolResult, content,
          Option.some (MessageData.toolResult tn tid res true)⟩).all
            (fun l => l.errorMarked) = true
      ∧ tuiSendMessage true render ts width ⟨MessageType.toolResult, content,
          Option.some (MessageData.toolResult tn tid res true)⟩ ≠ []
      ∧ consoleSendMessage false ⟨MessageType.toolResult, content,
          Option.some (MessageData.toolResult tn tid res true)⟩ = []
      ∧ tuiSendMessage false render ts width ⟨MessageType.toolResult, content,
          Option.some (MessageData.toolResult tn tid res true)⟩ = []) := by
  cases interactive <;>
    simp [consoleSendMessage, tuiSendMessage, tuiAddMessage]

/-- Claim C9 counterexample: in a state where neither
`waitingForResponse` nor `processingTool` holds, a matching animation tick
still advances the spinner frame (from 0 to 1) while scheduling no further
tick — refuting the claim that the tick advances the spinner only in the
awaiting-model or tool-in-progress states. -/
theorem spinner_advances_while_idle_cex :
    (updateSpinnerTick ⟨true, false, false, "", ⟨0, 10⟩⟩).1.spinner.frame = 1
    ∧ (updateSpinnerTick ⟨true, false, false, "", ⟨0, 10⟩⟩).2 = false := by
  decide

/-- Claim C9 (amended): a matching animation-tick event always advances the
spinner frame (wrapping at the frame count), and schedules a further tick
exactly when awaiting-model-response or tool-in-progress is true; in every
other state no further tick is scheduled, so the ticker expires. -/
theorem spinner_tick_behaviour (m : TuiState) :
    (updateSpinnerTick m).1.spinner.frame =
      (m.spinner.frame + 1) % m.spinner.numFrames
    ∧ (updateSpinnerTick m).2 = (m.waitingForResponse || m.processingTool) :=
  ⟨rfl, rfl⟩

/-- Claim C10: the tool-result block returned by dispatch carries exactly
the invocation identifier it was invoked with, in all three outcomes (not
found, function error, function success). -/
theorem invocation_id_preserved (tools : List ToolDefinition)
    (id name input : String) :
    (executeTool tools id name input).2.toolUseID = id :=
  executeTool_id tools id name input

end TinyTrae
